import Mathlib

/-!
Verification of the attendance aggregation engine of the AttendaTrack
dashboard: a shallow embedding of the data model (`src/lib/types.ts`) and of
the pure computations found in the dashboard components (stats cards, class
statistics, daily attendance chart, duplicate-record pre-checks, data-load
error handling), with theorems settling the spec's testable properties.
-/

namespace AttendaTrack

/-- Attendance status, from `src/lib/types.ts`:
`status: 'Present' | 'Absent' | 'Excused'`. -/
inductive Status where
  | present
  | absent
  | excused
deriving DecidableEq, Repr

/-- `Student` from `src/lib/types.ts`. -/
structure Student where
  studentId : String
  name : String
  rollNo : String
  classId : String
  parentName : Option String
  parentPhone : Option String
deriving DecidableEq, Repr

/-- `AttendanceRecord` from `src/lib/types.ts`.  The trailing fields are the
optional denormalized display fields (`name?`, `rollNo?`, `classId?`). -/
structure AttendanceRecord where
  attendanceId : String
  studentId : String
  date : String
  status : Status
  name : Option String
  rollNo : Option String
  classId : Option String
deriving DecidableEq, Repr

/-- Result of the stats computation in `StatsCards`
(`src/components/dashboard/stats-cards.tsx`). -/
structure Stats where
  totalStudents : Nat
  overallAttendanceRate : ℚ
  todayPresent : Nat
  todayAbsent : Nat
deriving DecidableEq, Repr

/-- The `useMemo` body of `StatsCards`
(`src/components/dashboard/stats-cards.tsx`, lines 14-33).  The current
local date string `format(new Date(), "yyyy-MM-dd")` is injected as the
parameter `todayStr`; JavaScript number division is modelled exactly over
`ℚ`. -/
def globalStats (students : List Student) (records : List AttendanceRecord)
    (todayStr : String) : Stats :=
  let totalStudents := students.length
  let presentRecords :=
    (records.filter (fun r => decide (r.status = Status.present))).length
  let totalTrackedRecords := records.length
  let overallAttendanceRate : ℚ :=
    if 0 < totalTrackedRecords then
      ((presentRecords : ℚ) / (totalTrackedRecords : ℚ)) * 100
    else 0
  let todayRecords := records.filter (fun r => decide (r.date = todayStr))
  let todayPresent :=
    (todayRecords.filter (fun r => decide (r.status = Status.present))).length
  let todayAbsent :=
    (todayRecords.filter (fun r => decide (r.status = Status.absent))).length
  { totalStudents := totalStudents
    overallAttendanceRate := overallAttendanceRate
    todayPresent := todayPresent
    todayAbsent := todayAbsent }

lemma globalStats_totalStudents (students : List Student)
    (records : List AttendanceRecord) (todayStr : String) :
    (globalStats students records todayStr).totalStudents = students.length := rfl

lemma globalStats_rate (students : List Student)
    (records : List AttendanceRecord) (todayStr : String) :
    (globalStats students records todayStr).overallAttendanceRate =
      if 0 < records.length then
        (((records.filter (fun r => decide (r.status = Status.present))).length : ℚ) /
          (records.length : ℚ)) * 100
      else 0 := rfl

lemma rate_nonneg (students : List Student) (records : List AttendanceRecord)
    (todayStr : String) :
    0 ≤ (globalStats students records todayStr).overallAttendanceRate := by
  rw [globalStats_rate]
  split
  · positivity
  · exact le_refl 0

lemma rate_le_hundred (students : List Student) (records : List AttendanceRecord)
    (todayStr : String) :
    (globalStats students records todayStr).overallAttendanceRate ≤ 100 := by
  rw [globalStats_rate]
  split
  · rename_i h
    have hfil : (records.filter (fun r => decide (r.status = Status.present))).length
        ≤ records.length := List.length_filter_le _ _
    have hn : (0 : ℚ) < (records.length : ℚ) := by exact_mod_cast h
    have hdiv :
        ((records.filter (fun r => decide (r.status = Status.present))).length : ℚ) /
          (records.length : ℚ) ≤ 1 := by
      rw [div_le_one hn]
      exact_mod_cast hfil
    calc ((records.filter (fun r => decide (r.status = Status.present))).length : ℚ) /
          (records.length : ℚ) * 100
        ≤ 1 * 100 := by
          exact mul_le_mul_of_nonneg_right hdiv (by norm_num)
      _ = 100 := by norm_num
  · norm_num

/-- C1: for every roster and record set, `globalStats` returns
`totalStudents` equal to the length of the student list, and
`overallAttendanceRate` equal to `presentCount / totalRecords * 100` when
`totalRecords > 0` and `0` otherwise; the rate is always defined and lies
in `[0, 100]`. -/
theorem globalStats_spec (students : List Student)
    (records : List AttendanceRecord) (todayStr : String) :
    (globalStats students records todayStr).totalStudents = students.length ∧
    (globalStats students records todayStr).overallAttendanceRate =
      (if 0 < records.length then
        (((records.filter (fun r => decide (r.status = Status.present))).length : ℚ) /
          (records.length : ℚ)) * 100
      else 0) ∧
    0 ≤ (globalStats students records todayStr).overallAttendanceRate ∧
    (globalStats students records todayStr).overallAttendanceRate ≤ 100 :=
  ⟨globalStats_totalStudents students records todayStr,
   globalStats_rate students records todayStr,
   rate_nonneg students records todayStr,
   rate_le_hundred students records todayStr⟩

/-- C5 counterexample: with an empty student list but one `Present` record,
`globalStats` returns `totalStudents = 0` but an attendance rate of `100`,
not `0`, so an empty roster alone does not force a zero rate. -/
theorem globalStats_empty_roster_nonzero_rate :
    (globalStats []
      [⟨"a1", "S1", "2024-01-01", Status.present, none, none, none⟩]
      "2024-01-02").totalStudents = 0 ∧
    (globalStats []
      [⟨"a1", "S1", "2024-01-01", Status.present, none, none, none⟩]
      "2024-01-02").overallAttendanceRate = 100 ∧
    ((100 : ℚ) ≠ 0) := by
  refine ⟨rfl, ?_, by norm_num⟩
  norm_num [globalStats_rate]

/-- C5 amended: with an empty student list, `globalStats` returns
`totalStudents = 0`; the rate is always a defined rational (never `NaN`),
and it equals `0` when the record set is also empty — with a nonempty
record set the rate is computed from those records and may be nonzero. -/
theorem globalStats_empty_roster (records : List AttendanceRecord)
    (todayStr : String) :
    (globalStats [] records todayStr).totalStudents = 0 ∧
    0 ≤ (globalStats [] records todayStr).overallAttendanceRate ∧
    (records = [] →
      (globalStats [] records todayStr).overallAttendanceRate = 0) := by
  refine ⟨rfl, rate_nonneg [] records todayStr, ?_⟩
  rintro rfl
  simp [globalStats_rate]

/-- Witness for C5's amended theorem at a concrete input. -/
theorem globalStats_empty_roster_witness :
    (globalStats [] [] "2024-01-02").totalStudents = 0 ∧
    (globalStats [] [] "2024-01-02").overallAttendanceRate = 0 :=
  ⟨(globalStats_empty_roster [] "2024-01-02").1,
   (globalStats_empty_roster [] "2024-01-02").2.2 rfl⟩

/-- Result of the per-class stats computation in `ClassStatsTab`
(`src/components/dashboard/class-stats-tab.tsx`). -/
structure ClassStats where
  totalStudents : Nat
  overallAttendanceRate : ℚ
  recordsForClass : List AttendanceRecord
deriving DecidableEq, Repr

/-- The `classStats` `useMemo` body of `ClassStatsTab`
(`src/components/dashboard/class-stats-tab.tsx`, lines 38-54).
`selectedClass` is `null` before the user picks a class, so the input is an
`Option`; the record filter uses the record's own denormalized `classId`
field (`r.classId === selectedClass`). -/
def classStats (students : List Student) (records : List AttendanceRecord)
    (selectedClass : Option String) : Option ClassStats :=
  match selectedClass with
  | none => none
  | some c =>
    let studentsInClass := students.filter (fun s => decide (s.classId = c))
    let recordsForClass := records.filter (fun r => decide (r.classId = some c))
    let totalStudents := studentsInClass.length
    let presentRecords :=
      (recordsForClass.filter (fun r => decide (r.status = Status.present))).length
    let totalTrackedRecords := recordsForClass.length
    let overallAttendanceRate : ℚ :=
      if 0 < totalTrackedRecords then
        ((presentRecords : ℚ) / (totalTrackedRecords : ℚ)) * 100
      else 0
    some { totalStudents := totalStudents
           overallAttendanceRate := overallAttendanceRate
           recordsForClass := recordsForClass }

lemma classStats_some (students : List Student)
    (records : List AttendanceRecord) (c : String) :
    classStats students records (some c) =
      some { totalStudents := (students.filter (fun s => decide (s.classId = c))).length
             overallAttendanceRate :=
               if 0 < (records.filter (fun r => decide (r.classId = some c))).length then
                 ((((records.filter (fun r => decide (r.classId = some c))).filter
                     (fun r => decide (r.status = Status.present))).length : ℚ) /
                   ((records.filter (fun r => decide (r.classId = some c))).length : ℚ)) * 100
               else 0
             recordsForClass := records.filter (fun r => decide (r.classId = some c)) } := rfl

/-- C4 counterexample: a record carrying `classId = "10-A"` while no student
is in class `"10-A"` — `classStats` returns `totalStudents = 0` but rate
`100`, so "zero matching students" does not force rate `0` as the claim
states. -/
theorem classStats_zero_students_nonzero_rate :
    ∃ st, classStats []
        [⟨"a1", "S1", "2024-01-01", Status.present, none, none, some "10-A"⟩]
        (some "10-A") = some st ∧
      st.totalStudents = 0 ∧ st.overallAttendanceRate = 100 ∧
      ¬ st.overallAttendanceRate = 0 := by
  refine ⟨_, classStats_some _ _ _, rfl, ?_, ?_⟩ <;>
    norm_num [List.filter]

/-- C4 amended: `classStats` filters attendance records by the record's own
`classId` field — its rate and filtered record list do not depend on the
student list at all — and when zero students match the selected class it
returns `totalStudents = 0` (a defined result, not an error); the rate is
computed from the records carrying that `classId` and equals `0` when no
such records exist (it may be nonzero when stale records carry the class). -/
theorem classStats_spec (students : List Student)
    (records : List AttendanceRecord) (c : String) :
    classStats students records none = none ∧
    (∃ st, classStats students records (some c) = some st ∧
      st.totalStudents = (students.filter (fun s => decide (s.classId = c))).length ∧
      st.recordsForClass = records.filter (fun r => decide (r.classId = some c)) ∧
      ((students.filter (fun s => decide (s.classId = c))).length = 0 →
        st.totalStudents = 0) ∧
      (records.filter (fun r => decide (r.classId = some c)) = [] →
        st.overallAttendanceRate = 0) ∧
      (∀ students' : List Student, ∃ st',
        classStats students' records (some c) = some st' ∧
        st'.overallAttendanceRate = st.overallAttendanceRate ∧
        st'.recordsForClass = st.recordsForClass)) := by
  refine ⟨rfl, _, classStats_some students records c, rfl, rfl, fun h => h, ?_, ?_⟩
  · intro h
    simp only [classStats_some]
    rw [h]
    simp
  · intro students'
    exact ⟨_, classStats_some students' records c, rfl, rfl⟩

/-- Witness for C4's amended theorem at a concrete input: a class with no
matching students and no matching records yields `totalStudents = 0` and
rate `0`. -/
theorem classStats_spec_witness :
    ∃ st, classStats [] [] (some "10-A") = some st ∧
      st.totalStudents = 0 ∧ st.overallAttendanceRate = 0 := by
  obtain ⟨st, hst, htot, -, hzero, hrate, -⟩ := (classStats_spec [] [] "10-A").2
  exact ⟨st, hst, hzero rfl, hrate rfl⟩

/-- Insertion-ordered deduplication, the semantics of the JavaScript
`Array.from(new Set(l))`: each value is kept at its first appearance and
later occurrences are dropped. -/
def setFromArray (l : List String) : List String :=
  l.foldl (fun acc c => if c ∈ acc then acc else acc ++ [c]) []

/-- The `uniqueClasses` `useMemo` body of `ClassStatsTab`
(`src/components/dashboard/class-stats-tab.tsx`, lines 33-36):
`Array.from(new Set(students.map(s => s.classId)))`. -/
def uniqueClasses (students : List Student) : List String :=
  setFromArray (students.map (fun s => s.classId))

/-- Specification-side deduplication, following the spec's words: the
distinct values in order of first appearance — keep the head, drop its
later duplicates, recurse. -/
def firstDedup : List String → List String
  | [] => []
  | c :: cs => c :: firstDedup (cs.filter (fun x => decide (x ≠ c)))
termination_by l => l.length
decreasing_by
  simp only [List.length_cons]
  exact Nat.lt_succ_of_le (List.length_filter_le _ _)

lemma firstDedup_nil : firstDedup [] = [] := by
  unfold firstDedup
  rfl

lemma firstDedup_cons (c : String) (cs : List String) :
    firstDedup (c :: cs) = c :: firstDedup (cs.filter (fun x => decide (x ≠ c))) := by
  conv_lhs => rw [firstDedup]

lemma setFromArray_go (l : List String) : ∀ acc : List String,
    l.foldl (fun acc c => if c ∈ acc then acc else acc ++ [c]) acc =
      acc ++ firstDedup (l.filter (fun x => decide (x ∉ acc))) := by
  induction l with
  | nil => intro acc; simp [firstDedup_nil]
  | cons c cs ih =>
    intro acc
    by_cases hc : c ∈ acc
    · rw [List.foldl_cons, if_pos hc, ih acc, List.filter_cons,
        if_neg (by simp [hc])]
    · rw [List.foldl_cons, if_neg hc, ih (acc ++ [c]), List.filter_cons,
        if_pos (by simp [hc]), firstDedup_cons, List.filter_filter]
      have hpred : ∀ x : String,
          (decide (x ≠ c) && decide (x ∉ acc)) = decide (x ∉ acc ++ [c]) := by
        intro x
        by_cases hx : x = c <;> by_cases hy : x ∈ acc <;>
          simp [hx, hy, List.mem_append]
      rw [List.filter_congr (fun x _ => hpred x)]
      simp [List.append_assoc]

lemma mem_firstDedup_sub : ∀ (l : List String) (x : String),
    x ∈ firstDedup l → x ∈ l := by
  intro l
  induction l using firstDedup.induct with
  | case1 => simp [firstDedup_nil]
  | case2 c cs ih =>
    intro x hx
    rw [firstDedup_cons] at hx
    rcases List.mem_cons.mp hx with h | h
    · exact h ▸ List.mem_cons_self _ _
    · exact List.mem_cons_of_mem _ (List.mem_of_mem_filter (ih x h))

lemma firstDedup_nodup : ∀ l : List String, (firstDedup l).Nodup := by
  intro l
  induction l using firstDedup.induct with
  | case1 => simp [firstDedup_nil]
  | case2 c cs ih =>
    rw [firstDedup_cons]
    refine List.nodup_cons.mpr ⟨?_, ih⟩
    intro hc
    have := List.of_mem_filter (mem_firstDedup_sub _ _ hc)
    simp at this

lemma uniqueClasses_eq_firstDedup (students : List Student) :
    uniqueClasses students = firstDedup (students.map (fun s => s.classId)) := by
  unfold uniqueClasses setFromArray
  rw [setFromArray_go]
  simp only [List.nil_append]
  congr 1
  exact List.filter_eq_self.mpr (fun x _ => rfl)

/-- C8: `uniqueClasses` returns the distinct `classId` values of the roster
in order of first appearance with no duplicates; in particular, on class
ids `["10-A", "10-B", "10-A"]` it returns `["10-A", "10-B"]`. -/
theorem uniqueClasses_spec (students : List Student) :
    uniqueClasses students = firstDedup (students.map (fun s => s.classId)) ∧
    (uniqueClasses students).Nodup ∧
    (∀ c, c ∈ uniqueClasses students ↔ c ∈ students.map (fun s => s.classId)) ∧
    uniqueClasses
      [⟨"S1", "Ana", "1", "10-A", none, none⟩,
       ⟨"S2", "Ben", "2", "10-B", none, none⟩,
       ⟨"S3", "Cal", "3", "10-A", none, none⟩] = ["10-A", "10-B"] := by
  refine ⟨uniqueClasses_eq_firstDedup students, ?_, ?_, by decide⟩
  · rw [uniqueClasses_eq_firstDedup]
    exact firstDedup_nodup _
  · intro c
    rw [uniqueClasses_eq_firstDedup]
    constructor
    · exact mem_firstDedup_sub _ c
    · generalize students.map (fun s => s.classId) = l
      induction l using firstDedup.induct with
      | case1 => simp
      | case2 a as ih =>
        intro hc
        rw [firstDedup_cons]
        rcases List.mem_cons.mp hc with h | h
        · exact h ▸ List.mem_cons_self _ _
        · by_cases hca : c = a
          · exact hca ▸ List.mem_cons_self _ _
          · exact List.mem_cons_of_mem _
              (ih (List.mem_filter.mpr ⟨h, by simp [hca]⟩))

/-- Payload of `onMarkAttendance` / `markAttendance`
(`{ studentId: string; date: string; status: string }` in
`src/components/dashboard.tsx`); the status strings range over the
`AttendanceStatus` union, embedded as `Status`. -/
structure MarkPayload where
  studentId : String
  date : String
  status : Status
deriving DecidableEq, Repr

/-- The duplicate pre-check inside `handleMarkAttendance`
(`src/components/dashboard.tsx`):
`attendanceRecords.find(record => record.studentId === data.studentId && record.date === dateStr)`
is a hit. -/
def hasExistingRecord (records : List AttendanceRecord)
    (studentId date : String) : Bool :=
  (records.find? (fun r =>
    decide (r.studentId = studentId) && decide (r.date = date))).isSome

/-- `handleMarkAttendance` from `src/components/dashboard.tsx`, modelled as
a pure transform: the returned pair is the boolean result reported to the
caller and the write forwarded to `markAttendance` (`none` when the
duplicate pre-check rejects before any write is attempted). -/
def handleMarkAttendance (records : List AttendanceRecord)
    (data : MarkPayload) : Bool × Option MarkPayload :=
  match records.find? (fun r =>
    decide (r.studentId = data.studentId) && decide (r.date = data.date)) with
  | some _ => (false, none)
  | none => (true, some data)

lemma find?_isSome_iff_exists (records : List AttendanceRecord)
    (studentId date : String) :
    (records.find? (fun r =>
      decide (r.studentId = studentId) && decide (r.date = date))).isSome = true ↔
    ∃ r ∈ records, r.studentId = studentId ∧ r.date = date := by
  induction records with
  | nil => simp [List.find?]
  | cons r rs ih =>
    by_cases h : r.studentId = studentId ∧ r.date = date
    · simp [List.find?, h.1, h.2]
    · rw [Decidable.not_and_iff_or_not] at h
      rcases h with h | h <;>
        simp [List.find?, h, ih]

/-- C3: `hasExistingRecord` is true iff some record has exactly the given
`studentId` and `date` (in particular it is false on the empty record set),
and whenever it is true the mark-attendance operation returns `false` with
no write forwarded to the store. -/
theorem hasExistingRecord_spec (records : List AttendanceRecord)
    (studentId date : String) :
    (hasExistingRecord records studentId date = true ↔
      ∃ r ∈ records, r.studentId = studentId ∧ r.date = date) ∧
    hasExistingRecord [] studentId date = false ∧
    (∀ data : MarkPayload,
      hasExistingRecord records data.studentId data.date = true →
      handleMarkAttendance records data = (false, none)) := by
  refine ⟨find?_isSome_iff_exists records studentId date, rfl, ?_⟩
  intro data h
  unfold hasExistingRecord at h
  unfold handleMarkAttendance
  rcases hfind : records.find? (fun r =>
      decide (r.studentId = data.studentId) && decide (r.date = data.date)) with
    - | r
  · rw [hfind] at h
    simp at h
  · rw [hfind]

/-- Witness for C3 at a concrete input: the pair `("S1", "2024-01-01")`
already present in the record set is detected and the submission is
rejected with no write. -/
theorem hasExistingRecord_spec_witness :
    hasExistingRecord
      [⟨"a1", "S1", "2024-01-01", Status.present, none, none, none⟩]
      "S1" "2024-01-01" = true ∧
    handleMarkAttendance
      [⟨"a1", "S1", "2024-01-01", Status.present, none, none, none⟩]
      ⟨"S1", "2024-01-01", Status.absent⟩ = (false, none) := by
  have h := (hasExistingRecord_spec
    [⟨"a1", "S1", "2024-01-01", Status.present, none, none, none⟩]
    "S1" "2024-01-01")
  exact ⟨h.1.mpr ⟨_, List.mem_singleton.mpr rfl, rfl, rfl⟩,
    h.2.2 ⟨"S1", "2024-01-01", Status.absent⟩ (by decide)⟩

/-- The dashboard's in-memory collections
(`students` / `attendanceRecords` state in `src/components/dashboard.tsx`). -/
structure DashboardState where
  students : List Student
  attendanceRecords : List AttendanceRecord
deriving DecidableEq, Repr

/-- `Promise.all` over the two parallel reads of `loadData`: the combined
load succeeds only when both reads succeed, and fails with the first error
otherwise. -/
def promiseAll2 (rs : Except String (Option (List Student)))
    (ra : Except String (Option (List AttendanceRecord))) :
    Except String (Option (List Student) × Option (List AttendanceRecord)) :=
  match rs, ra with
  | Except.ok s, Except.ok a => Except.ok (s, a)
  | Except.error e, _ => Except.error e
  | _, Except.error e => Except.error e

/-- `loadData` from `src/components/dashboard.tsx`, modelled on the state it
leaves behind: on success both collections are replaced by the fetched data
(`setStudents(studentsData || [])`, null coalesced to `[]`); on any failure
the `catch` block resets both collections to `[]` regardless of the
previous state. -/
def loadData (_prev : DashboardState)
    (rs : Except String (Option (List Student)))
    (ra : Except String (Option (List AttendanceRecord))) : DashboardState :=
  match promiseAll2 rs ra with
  | Except.ok (s, a) => { students := s.getD [], attendanceRecords := a.getD [] }
  | Except.error _ => { students := [], attendanceRecords := [] }

/-- C6: when the initial data load fails in either of its two parallel
reads, both in-memory collections are reset to empty, independent of
whatever (possibly partial or stale) state was held before. -/
theorem loadData_failure_resets (prev : DashboardState) (e : String)
    (rs : Except String (Option (List Student)))
    (ra : Except String (Option (List AttendanceRecord)))
    (h : rs = Except.error e ∨ ra = Except.error e) :
    loadData prev rs ra = { students := [], attendanceRecords := [] } := by
  rcases h with h | h
  · subst h
    unfold loadData promiseAll2
    rcases ra with e' | a <;> rfl
  · subst h
    unfold loadData promiseAll2
    rcases rs with e' | s <;> rfl

/-- Witness for C6 at a concrete input: the roster read fails while the
attendance read succeeds with data, yet the resulting state is fully
empty. -/
theorem loadData_failure_resets_witness :
    loadData
      { students := [⟨"S1", "Ana", "1", "10-A", none, none⟩],
        attendanceRecords :=
          [⟨"a1", "S1", "2024-01-01", Status.present, none, none, none⟩] }
      (Except.error "network error")
      (Except.ok (some [⟨"a2", "S2", "2024-01-02", Status.absent, none, none, none⟩]))
      = { students := [], attendanceRecords := [] } :=
  loadData_failure_resets _ "network error" _ _ (Or.inl rfl)

/-- `onSubmit` of `ClassAttendanceTab`
(`src/components/dashboard/class-attendance-tab.tsx`, lines 132-156),
modelled on the writes it dispatches: the pre-check collects already-loaded
records whose date is the chosen date and whose `studentId` is among the
students of the selected class; if any exist the whole submission is
rejected (no `onMarkAttendance` call), otherwise one write per entry of the
per-student status map is dispatched. -/
def classSubmit (records : List AttendanceRecord)
    (studentsInClass : List Student) (statuses : List (String × Status))
    (date : String) : List MarkPayload :=
  let studentsToMark := studentsInClass.map (fun s => s.studentId)
  let existingRecords := records.filter (fun r =>
    decide (r.date = date) && decide (r.studentId ∈ studentsToMark))
  if 0 < existingRecords.length then []
  else statuses.map (fun p => ⟨p.1, date, p.2⟩)

/-- C10: bulk class submission is all-or-nothing at the pre-check — if any
student of the selected class already has a record at the chosen date, the
entire batch is rejected with no write for any student; otherwise every
entry of the status map is written. -/
theorem classSubmit_all_or_nothing (records : List AttendanceRecord)
    (studentsInClass : List Student) (statuses : List (String × Status))
    (date : String) :
    ((∃ r ∈ records, r.date = date ∧
        r.studentId ∈ studentsInClass.map (fun s => s.studentId)) →
      classSubmit records studentsInClass statuses date = []) ∧
    ((¬ ∃ r ∈ records, r.date = date ∧
        r.studentId ∈ studentsInClass.map (fun s => s.studentId)) →
      classSubmit records studentsInClass statuses date =
        statuses.map (fun p => ⟨p.1, date, p.2⟩)) := by
  constructor
  · rintro ⟨r, hr, hdate, hmem⟩
    unfold classSubmit
    rw [if_pos]
    refine List.length_pos.mpr (List.ne_nil_of_mem (a := r) ?_)
    simp only [List.mem_filter, Bool.and_eq_true, decide_eq_true_eq]
    exact ⟨hr, hdate, hmem⟩
  · intro h
    unfold classSubmit
    rw [if_neg]
    simp only [not_lt, Nat.le_zero, List.length_eq_zero, List.filter_eq_nil_iff]
    intro r hr
    simp only [Bool.and_eq_true, decide_eq_true_eq, not_and]
    intro hdate hmem
    exact h ⟨r, hr, hdate, hmem⟩

/-- Witness for C10 at concrete inputs: with an existing record for `S1` on
the chosen date the whole batch (including `S2`) is dropped; with no
conflicting record the full batch is dispatched. -/
theorem classSubmit_all_or_nothing_witness :
    classSubmit
      [⟨"a1", "S1", "2024-01-01", Status.present, none, none, none⟩]
      [⟨"S1", "Ana", "1", "10-A", none, none⟩, ⟨"S2", "Ben", "2", "10-A", none, none⟩]
      [("S1", Status.present), ("S2", Status.absent)] "2024-01-01" = [] ∧
    classSubmit []
      [⟨"S1", "Ana", "1", "10-A", none, none⟩, ⟨"S2", "Ben", "2", "10-A", none, none⟩]
      [("S1", Status.present), ("S2", Status.absent)] "2024-01-01" =
      [⟨"S1", "2024-01-01", Status.present⟩, ⟨"S2", "2024-01-01", Status.absent⟩] := by
  constructor
  · exact (classSubmit_all_or_nothing _ _ _ _).1
      ⟨⟨"a1", "S1", "2024-01-01", Status.present, none, none, none⟩,
        List.mem_singleton.mpr rfl, rfl, by decide⟩
  · exact (classSubmit_all_or_nothing _ _ _ _).2 (by decide)

/-- `true` iff the needle is an initial segment of the haystack (character
lists). -/
def matchesFront : List Char → List Char → Bool
  | [], _ => true
  | _ :: _, [] => false
  | a :: as, b :: bs => a == b && matchesFront as bs

/-- `true` iff the needle occurs as a contiguous subsequence of the
haystack (character lists); the empty needle occurs everywhere, matching
JavaScript `String.prototype.includes`. -/
def containsSeq (needle : List Char) : List Char → Bool
  | [] => needle.isEmpty
  | c :: cs => matchesFront needle (c :: cs) || containsSeq needle cs

/-- Lower-case a single character (ASCII letter range, as JavaScript's
`toLowerCase` does on the roster's ASCII names and roll numbers). -/
def lowerChar (c : Char) : Char :=
  if 65 ≤ c.toNat ∧ c.toNat ≤ 90 then Char.ofNat (c.toNat + 32) else c

/-- Case-insensitive substring test: the lower-cased query occurs inside
the lower-cased subject. -/
def containsCI (subject query : String) : Bool :=
  containsSeq (query.toList.map lowerChar) (subject.toList.map lowerChar)

/-- Modelled from the spec: no `filterStudents` implementation exists under
`src/` (the students tab renders the roster without a search box), so this
follows the spec's words — a case-insensitive substring match of `query`
against `name` OR `rollNo`, with an empty or absent query returning the
full input unchanged. -/
def filterStudents (students : List Student) (query : String) : List Student :=
  if query = "" then students
  else students.filter (fun s => containsCI s.name query || containsCI s.rollNo query)

/-- C7: `filterStudents` keeps exactly the students whose `name` or
`rollNo` contains the query case-insensitively, preserves the input order
(the result is a sublist of the input), and an empty query returns the full
input unchanged; filtering `name = "Ana"` by `"ana"` keeps that student. -/
theorem filterStudents_spec (students : List Student) (query : String) :
    filterStudents students "" = students ∧
    (filterStudents students query).Sublist students ∧
    (∀ s, s ∈ filterStudents students query ↔
      s ∈ students ∧ (query = "" ∨
        containsCI s.name query = true ∨ containsCI s.rollNo query = true)) ∧
    filterStudents [⟨"S1", "Ana", "7", "10-A", none, none⟩] "ana" =
      [⟨"S1", "Ana", "7", "10-A", none, none⟩] := by
  refine ⟨by simp [filterStudents], ?_, ?_, by decide⟩
  · unfold filterStudents
    split
    · exact List.Sublist.refl students
    · exact List.filter_sublist students
  · intro s
    unfold filterStudents
    split
    · rename_i hq
      simp [hq]
    · rename_i hq
      rw [List.mem_filter]
      simp [hq, Bool.or_eq_true]

/-- Gregorian leap-year test. -/
def isLeap (y : Nat) : Bool :=
  decide ((y % 4 = 0 ∧ y % 100 ≠ 0) ∨ y % 400 = 0)

/-- Number of days of month `m` (1-12) in year `y`. -/
def daysInMonth (y m : Nat) : Nat :=
  if m = 2 then (if isLeap y then 29 else 28)
  else if m = 4 ∨ m = 6 ∨ m = 9 ∨ m = 11 then 30
  else 31

/-- A local calendar date (the `Date` values flowing through `date-fns`). -/
structure Date where
  year : Nat
  month : Nat
  day : Nat
deriving DecidableEq, Repr

/-- The previous calendar day, with month and year rollover. -/
def Date.prevDay (d : Date) : Date :=
  if 1 < d.day then ⟨d.year, d.month, d.day - 1⟩
  else if 1 < d.month then ⟨d.year, d.month - 1, daysInMonth d.year (d.month - 1)⟩
  else ⟨d.year - 1, 12, 31⟩

/-- `date-fns`'s `subDays`: step back `n` calendar days. -/
def subDays (d : Date) : Nat → Date
  | 0 => d
  | n + 1 => (subDays d n).prevDay

/-- Zero-pad a number to two digits, as in the `MM` / `dd` format tokens. -/
def pad2 (n : Nat) : String :=
  if n < 10 then "0" ++ toString n else toString n

/-- Zero-pad a number to four digits, as in the `yyyy` format token. -/
def pad4 (n : Nat) : String :=
  if n < 10 then "000" ++ toString n
  else if n < 100 then "00" ++ toString n
  else if n < 1000 then "0" ++ toString n
  else toString n

/-- `format(day, "yyyy-MM-dd")`. -/
def formatISO (d : Date) : String :=
  pad4 d.year ++ "-" ++ pad2 d.month ++ "-" ++ pad2 d.day

/-- Short month name, as in the `MMM` format token. -/
def monthLabel : Nat → String
  | 1 => "Jan"
  | 2 => "Feb"
  | 3 => "Mar"
  | 4 => "Apr"
  | 5 => "May"
  | 6 => "Jun"
  | 7 => "Jul"
  | 8 => "Aug"
  | 9 => "Sep"
  | 10 => "Oct"
  | 11 => "Nov"
  | 12 => "Dec"
  | _ => ""

/-- `format(day, "MMM d")`, the human-readable bucket label. -/
def formatLabel (d : Date) : String :=
  monthLabel d.month ++ " " ++ toString d.day

/-- One bucket of the 7-day chart data in `AttendanceChart`
(`src/components/dashboard/attendance-chart.tsx`): the `MMM d` label and
the `Present` / `Absent` / `Excused` counts. -/
structure DayBucket where
  date : String
  present : Nat
  absent : Nat
  excused : Nat
deriving DecidableEq, Repr

/-- The per-day mapping function inside `AttendanceChart`'s `useMemo`
(`src/components/dashboard/attendance-chart.tsx`, lines 17-27): records are
matched against the day by exact string equality with its `yyyy-MM-dd`
rendering. -/
def bucketFor (records : List AttendanceRecord) (day : Date) : DayBucket :=
  let dateStr := formatISO day
  let recordsForDay := records.filter (fun r => decide (r.date = dateStr))
  { date := formatLabel day
    present :=
      (recordsForDay.filter (fun r => decide (r.status = Status.present))).length
    absent :=
      (recordsForDay.filter (fun r => decide (r.status = Status.absent))).length
    excused :=
      (recordsForDay.filter (fun r => decide (r.status = Status.excused))).length }

/-- The chart data of `AttendanceChart`
(`src/components/dashboard/attendance-chart.tsx`, lines 14-28):
`Array.from({length: 7}, (_, i) => subDays(new Date(), i)).reverse()`
mapped to buckets; the current local date is injected as `today`. -/
def dailySeries (records : List AttendanceRecord) (today : Date) :
    List DayBucket :=
  (((List.range 7).map (fun i => subDays today i)).reverse).map
    (bucketFor records)

lemma dailySeries_eq (records : List AttendanceRecord) (today : Date) :
    dailySeries records today =
      [bucketFor records (subDays today 6), bucketFor records (subDays today 5),
       bucketFor records (subDays today 4), bucketFor records (subDays today 3),
       bucketFor records (subDays today 2), bucketFor records (subDays today 1),
       bucketFor records (subDays today 0)] := rfl

lemma dailySeries_get? (records : List AttendanceRecord) (today : Date)
    (i : Nat) (hi : i < 7) :
    (dailySeries records today).get? i =
      some (bucketFor records (subDays today (6 - i))) := by
  interval_cases i <;> rfl

/-- C2: the daily series always returns exactly 7 buckets ordered oldest to
newest — the bucket at index `i` is the bucket of the day `6 - i` days
before `today`, so the last bucket is today's — with counts obtained by
exact string equality between each record's `date` and the day's
`yyyy-MM-dd` rendering, and a day with no matching records yields an
all-zero bucket rather than being omitted (counts are `Nat`, hence
non-negative). -/
theorem dailySeries_spec (records : List AttendanceRecord) (today : Date) :
    (dailySeries records today).length = 7 ∧
    (∀ i, i < 7 → ∃ b, (dailySeries records today).get? i = some b ∧
      b.date = formatLabel (subDays today (6 - i)) ∧
      b.present =
        ((records.filter (fun r =>
          decide (r.date = formatISO (subDays today (6 - i))))).filter
            (fun r => decide (r.status = Status.present))).length ∧
      b.absent =
        ((records.filter (fun r =>
          decide (r.date = formatISO (subDays today (6 - i))))).filter
            (fun r => decide (r.status = Status.absent))).length ∧
      b.excused =
        ((records.filter (fun r =>
          decide (r.date = formatISO (subDays today (6 - i))))).filter
            (fun r => decide (r.status = Status.excused))).length) ∧
    (dailySeries records today).getLast? = some (bucketFor records today) ∧
    (∀ i, i < 7 →
      records.filter (fun r =>
        decide (r.date = formatISO (subDays today (6 - i)))) = [] →
      ∀ b, (dailySeries records today).get? i = some b →
        b.present = 0 ∧ b.absent = 0 ∧ b.excused = 0) := by
  refine ⟨rfl, ?_, ?_, ?_⟩
  · intro i hi
    exact ⟨bucketFor records (subDays today (6 - i)),
      dailySeries_get? records today i hi, rfl, rfl, rfl, rfl⟩
  · rw [dailySeries_eq]
    rfl
  · intro i hi hempty b hb
    rw [dailySeries_get? records today i hi] at hb
    cases hb
    simp only [bucketFor]
    rw [hempty]
    exact ⟨rfl, rfl, rfl⟩

/-- Witness for C2 at a concrete input: with no records and
`today = 2024-01-10` the series has 7 buckets, its last bucket is today's,
and the (empty) last day yields an all-zero bucket. -/
theorem dailySeries_spec_witness :
    (dailySeries [] ⟨2024, 1, 10⟩).length = 7 ∧
    (dailySeries [] ⟨2024, 1, 10⟩).getLast? =
      some (bucketFor [] ⟨2024, 1, 10⟩) ∧
    (∃ b, (dailySeries [] ⟨2024, 1, 10⟩).get? 6 = some b ∧
      b.present = 0 ∧ b.absent = 0 ∧ b.excused = 0) := by
  obtain ⟨hlen, hbuckets, hlast, hzero⟩ := dailySeries_spec [] ⟨2024, 1, 10⟩
  obtain ⟨b, hb, -, -, -, -⟩ := hbuckets 6 (by decide)
  exact ⟨hlen, hlast, b, hb, hzero 6 (by decide) rfl b hb⟩

lemma status_partition (l : List AttendanceRecord) :
    (l.filter (fun r => decide (r.status = Status.present))).length +
      (l.filter (fun r => decide (r.status = Status.absent))).length +
      (l.filter (fun r => decide (r.status = Status.excused))).length =
      l.length := by
  induction l with
  | nil => rfl
  | cons r rs ih =>
    rcases hr : r.status <;>
      simp [List.filter_cons, hr] <;> omega

/-- C9: in every bucket of the 7-day series the present, absent and excused
counts partition the records matching that bucket's day — their sum equals
the number of records whose date string equals that day's `yyyy-MM-dd`
rendering, since the status enumeration has exactly those three values. -/
theorem dailySeries_counts_partition (records : List AttendanceRecord)
    (today : Date) :
    ∀ i, i < 7 → ∀ b, (dailySeries records today).get? i = some b →
      b.present + b.absent + b.excused =
        (records.filter (fun r =>
          decide (r.date = formatISO (subDays today (6 - i))))).length := by
  intro i hi b hb
  rw [dailySeries_get? records today i hi] at hb
  cases hb
  simp only [bucketFor]
  exact status_partition _

/-- Witness for C9 at a concrete input: one `Present` record on
`2024-01-10` makes the last bucket's counts sum to the one matching
record. -/
theorem dailySeries_counts_partition_witness :
    ∃ b,
      (dailySeries [⟨"a1", "S1", "2024-01-10", Status.present, none, none, none⟩]
        ⟨2024, 1, 10⟩).get? 6 = some b ∧
      b.present + b.absent + b.excused =
        ([⟨"a1", "S1", "2024-01-10", Status.present, none, none, none⟩].filter
          (fun r : AttendanceRecord =>
            decide (r.date = formatISO (subDays ⟨2024, 1, 10⟩ (6 - 6))))).length := by
  refine ⟨bucketFor [⟨"a1", "S1", "2024-01-10", Status.present, none, none, none⟩]
    (subDays ⟨2024, 1, 10⟩ 0), rfl, ?_⟩
  exact dailySeries_counts_partition _ ⟨2024, 1, 10⟩ 6 (by decide) _ rfl

end AttendaTrack
